import Mathlib

/-!
Shallow embedding of `src/backend/app/services/gltf_converter.py`
(class `PolygonToGLTFConverter`), the extrusion-and-scene-assembly engine
of the home-craft-studio backend.

Conventions of the embedding:
* Python floats are modelled by `ℚ` (all arithmetic here is exact decimal).
* A shapely `Polygon` value is modelled by the list of its exterior
  coordinates (shapely stores the ring closed, first point repeated last);
  an element whose `geometry` is not a `Polygon` instance is modelled by
  `none`.
* A `trimesh.Trimesh` is modelled by the vertex array, face-index array and
  vertex-color array exactly as the Python code builds them and passes them
  to the constructor.
* A Python exception escaping a function is modelled by `Except.error`.
-/

deriving instance DecidableEq for Except

/-- A 2-D point `(x, y)`. -/
abbrev Point : Type := ℚ × ℚ

/-- A Python exception raised inside `_extrude_polygon`: indexing an empty
coordinate sequence (`coords[0]` on an empty list, or numpy fancy-indexing an
empty array) raises `IndexError`. -/
inductive PyError : Type where
  | indexError : PyError
deriving Repr, DecidableEq

/-- The mesh data exactly as `_extrude_polygon` assembles it: the stacked
vertex array (bottom ring then top ring), the face-index triples, and the
per-vertex RGBA colors (`np.tile(color, (len(vertices), 1))`). -/
structure Mesh : Type where
  vertices : List (ℚ × ℚ × ℚ)
  faces : List (Nat × Nat × Nat)
  vertex_colors : List (List ℚ)
deriving Repr, DecidableEq

/-- `self.color_map` of `PolygonToGLTFConverter.__init__`, key order preserved. -/
def color_map : List (String × List ℚ) :=
  [("BATHROOM", [mkRat 7 10, mkRat 9 10, 1, 1]),
   ("LIVING_ROOM", [1, mkRat 9 10, mkRat 7 10, 1]),
   ("KITCHEN", [1, mkRat 8 10, mkRat 8 10, 1]),
   ("ROOM", [mkRat 9 10, 1, mkRat 9 10, 1]),
   ("BEDROOM", [mkRat 9 10, 1, mkRat 9 10, 1]),
   ("BALCONY", [mkRat 8 10, mkRat 8 10, 1, 1]),
   ("CORRIDOR", [mkRat 95 100, mkRat 95 100, mkRat 95 100, 1]),
   ("SHAFT", [mkRat 6 10, mkRat 6 10, mkRat 6 10, 1]),
   ("DINING", [1, mkRat 95 100, mkRat 8 10, 1]),
   ("WALL", [mkRat 5 10, mkRat 5 10, mkRat 5 10, 1]),
   ("DOOR", [mkRat 6 10, mkRat 4 10, mkRat 2 10, 1]),
   ("WINDOW", [mkRat 7 10, mkRat 9 10, 1, mkRat 5 10]),
   ("ENTRANCE_DOOR", [mkRat 4 10, mkRat 3 10, mkRat 2 10, 1]),
   ("DEFAULT", [mkRat 8 10, mkRat 8 10, mkRat 8 10, 1])]

/-- Python `dict.get(key, default)` on the color table. -/
def dictGet (m : List (String × List ℚ)) (k : String) (d : List ℚ) : List ℚ :=
  match m.lookup k with
  | some v => v
  | none => d

/-- `_get_color_for_entity`: `color_map.get(subtype, color_map.get(type, color_map['DEFAULT']))`. -/
def _get_color_for_entity (entity_subtype entity_type : String) : List ℚ :=
  dictGet color_map entity_subtype
    (dictGet color_map entity_type (dictGet color_map "DEFAULT" []))

/-- The closing-duplicate removal of `_extrude_polygon`:
`if coords[0] == coords[-1]: coords = coords[:-1]`. -/
def removeClosingDup (coords : List Point) : List Point :=
  if coords.head? = coords.getLast? then coords.dropLast else coords

/-- The bottom-cap loop of `_extrude_polygon`: reversed index list, then
`faces.append([0, rev[i+1], rev[i]])` for `i in range(1, num_verts - 1)`.
(`rev.getD j 0` models `rev[j]`; every index used is in range.) -/
def bottom_faces (num_verts : Nat) : List (Nat × Nat × Nat) :=
  let rev := (List.range num_verts).reverse
  (List.range' 1 (num_verts - 2)).map (fun i => (0, rev.getD (i + 1) 0, rev.getD i 0))

/-- The top-cap loop: `faces.append([num_verts, num_verts + i, num_verts + i + 1])`
for `i in range(1, num_verts - 1)`. -/
def top_faces (num_verts : Nat) : List (Nat × Nat × Nat) :=
  (List.range' 1 (num_verts - 2)).map (fun i => (num_verts, num_verts + i, num_verts + i + 1))

/-- The side-wall loop: for each `i in range(num_verts)`, two triangles
`[i, next_i, num_verts + i]` and `[next_i, num_verts + next_i, num_verts + i]`
with `next_i = (i + 1) % num_verts`. -/
def side_faces (num_verts : Nat) : List (Nat × Nat × Nat) :=
  (List.range num_verts).flatMap (fun i =>
    let next_i := (i + 1) % num_verts
    [(i, next_i, num_verts + i), (next_i, num_verts + next_i, num_verts + i)])

/-- `_extrude_polygon(polygon, elevation, height, color)`.  Takes the exterior
coordinate list of the polygon.  `coords[0]` on an empty ring raises
`IndexError`; after removal of the closing duplicate, an empty list makes the
numpy column-stack indexing raise `IndexError`; otherwise the vertex and face
arrays are assembled and the mesh returned. -/
def _extrude_polygon (coords0 : List Point) (elevation height : ℚ) (color : List ℚ) :
    Except PyError Mesh :=
  if coords0.isEmpty then Except.error PyError.indexError
  else
    let coords := removeClosingDup coords0
    if coords.isEmpty then Except.error PyError.indexError
    else
      let num_verts := coords.length
      let bottom_verts := coords.map (fun p => (p.1, p.2, elevation))
      let top_verts := coords.map (fun p => (p.1, p.2, elevation + height))
      let vertices := bottom_verts ++ top_verts
      let faces := bottom_faces num_verts ++ top_faces num_verts ++ side_faces num_verts
      let vertex_colors := List.replicate vertices.length color
      Except.ok { vertices := vertices, faces := faces, vertex_colors := vertex_colors }

/-- Decimal digit characters, the embedding of Python `str` on a digit value. -/
def digitChar (d : Nat) : Char :=
  match d with
  | 0 => '0' | 1 => '1' | 2 => '2' | 3 => '3' | 4 => '4'
  | 5 => '5' | 6 => '6' | 7 => '7' | 8 => '8' | _ => '9'

/-- Fuel-driven digit expansion (the fuel only forces structural recursion;
`natDigits` always supplies enough). -/
def natDigitsAux : Nat → Nat → List Char
  | 0, _ => []
  | fuel + 1, n =>
    if n < 10 then [digitChar n]
    else natDigitsAux fuel (n / 10) ++ [digitChar (n % 10)]

/-- Decimal digit list of a natural number, most significant first:
the embedding of Python `str(n)` for a non-negative integer `n`. -/
def natDigits (n : Nat) : List Char := natDigitsAux (n + 1) n

/-- Python `str(n)` for a natural number. -/
def natRepr (n : Nat) : String := String.mk (natDigits n)

/-- One building-element record of `apartment_data` as the converter reads it:
`geometry` is `some` exterior-coordinate list when the stored geometry is a
shapely `Polygon` instance and `none` otherwise; `area_id` is `some` of the
string rendering of the stored `area_id` when the key is present, `none` when
absent (`dict.get('area_id', mesh_counter)` then falls back to the counter). -/
structure Element : Type where
  geometry : Option (List Point)
  entity_subtype : String
  entity_type : String
  elevation : ℚ
  height : ℚ
  area_id : Option String
deriving Repr, DecidableEq

/-- The three ordered element groups of `apartment_data`. -/
structure ApartmentData : Type where
  areas : List Element
  separators : List Element
  openings : List Element
deriving Repr, DecidableEq

/-- One named mesh added to the `trimesh.Scene`. -/
structure SceneNode : Type where
  name : String
  mesh : Mesh
deriving Repr, DecidableEq

/-- An exception escaping `convert_apartment_to_glb`: either the
`ValueError("No valid meshes created from apartment data")` raised when
`mesh_counter == 0`, or an exception propagated out of `_extrude_polygon`
(the surrounding `try/except` logs and re-raises it). -/
inductive ConvError : Type where
  | emptyScene : ConvError
  | geometry : PyError → ConvError
deriving Repr, DecidableEq

/-- `f"area_{idx}_{subtype}_{area.get('area_id', mesh_counter)}"`. -/
def area_name (idx : Nat) (e : Element) (counter : Nat) : String :=
  "area_" ++ natRepr idx ++ "_" ++ e.entity_subtype ++ "_" ++
    (match e.area_id with
     | some s => s
     | none => natRepr counter)

/-- `f"separator_{idx}_{subtype}_{mesh_counter}"`. -/
def separator_name (idx : Nat) (e : Element) (counter : Nat) : String :=
  "separator_" ++ natRepr idx ++ "_" ++ e.entity_subtype ++ "_" ++ natRepr counter

/-- `f"opening_{idx}_{subtype}_{mesh_counter}"`. -/
def opening_name (idx : Nat) (e : Element) (counter : Nat) : String :=
  "opening_" ++ natRepr idx ++ "_" ++ e.entity_subtype ++ "_" ++ natRepr counter

/-- One `for idx, x in enumerate(group)` loop of `convert_apartment_to_glb`:
skip non-`Polygon` geometry, resolve the color, extrude (an exception
propagates), name the mesh with the group's naming scheme and the running
`mesh_counter`, and append it to the scene. -/
def processGroup (nameFn : Nat → Element → Nat → String) :
    List Element → Nat → Nat → Except ConvError (List SceneNode × Nat)
  | [], _, counter => Except.ok ([], counter)
  | e :: rest, idx, counter =>
    match e.geometry with
    | none => processGroup nameFn rest (idx + 1) counter
    | some coords =>
      match _extrude_polygon coords e.elevation e.height
          (_get_color_for_entity e.entity_subtype e.entity_type) with
      | Except.error err => Except.error (ConvError.geometry err)
      | Except.ok mesh =>
        match processGroup nameFn rest (idx + 1) (counter + 1) with
        | Except.error err => Except.error err
        | Except.ok (nodes, c) => Except.ok (⟨nameFn idx e counter, mesh⟩ :: nodes, c)

/-- `convert_apartment_to_glb`: process areas, then separators, then openings
(each loop threading `mesh_counter`), fail with the empty-scene `ValueError`
if no mesh was produced, otherwise return the scene's node list in insertion
order.  (The final `scene.export` serialization is outside this embedding.) -/
def convert_apartment_to_glb (d : ApartmentData) : Except ConvError (List SceneNode) :=
  match processGroup area_name d.areas 0 0 with
  | Except.error e => Except.error e
  | Except.ok (ns1, c1) =>
    match processGroup separator_name d.separators 0 c1 with
    | Except.error e => Except.error e
    | Except.ok (ns2, c2) =>
      match processGroup opening_name d.openings 0 c2 with
      | Except.error e => Except.error e
      | Except.ok (ns3, c3) =>
        if c3 = 0 then Except.error ConvError.emptyScene
        else Except.ok (ns1 ++ ns2 ++ ns3)

/-- Whether an element's stored geometry is a shapely `Polygon` instance
(the `isinstance(x['geometry'], Polygon)` test of the conversion loops). -/
def isPolygonElem (e : Element) : Bool := e.geometry.isSome

/-- Whether meshing an element cannot raise: its geometry is either skipped
by the `isinstance` test or extrudes without an exception. -/
def elementOk (e : Element) : Bool :=
  match e.geometry with
  | none => true
  | some coords =>
    match _extrude_polygon coords e.elevation e.height
        (_get_color_for_entity e.entity_subtype e.entity_type) with
    | Except.ok _ => true
    | Except.error _ => false

/-- All elements of a batch in processing order. -/
def allElements (d : ApartmentData) : List Element :=
  d.areas ++ d.separators ++ d.openings

/-- Number of elements of a batch whose geometry is a `Polygon` instance. -/
def polygonCount (d : ApartmentData) : Nat :=
  ((allElements d).filter isPolygonElem).length

/-- Undirected key of an edge between vertex indices `a` and `b`. -/
def edgeKey (a b : Nat) : Nat × Nat := if a ≤ b then (a, b) else (b, a)

/-- The three undirected edges of a triangle. -/
def faceEdges : Nat × Nat × Nat → List (Nat × Nat)
  | (a, b, c) => [edgeKey a b, edgeKey b c, edgeKey a c]

/-- How many triangles of `faces` contain the undirected edge `e`. -/
def edgeUseCount (faces : List (Nat × Nat × Nat)) (e : Nat × Nat) : Nat :=
  (faces.flatMap faceEdges).count e

/-- A mesh is geometrically closed when every edge occurring in its face list
is shared by exactly two of its triangles. -/
def isClosedMesh (m : Mesh) : Bool :=
  (m.faces.flatMap faceEdges).all (fun e => edgeUseCount m.faces e == 2)

/-- Whether a triangle has three pairwise distinct vertex indices. -/
def nondegenerate : Nat × Nat × Nat → Bool
  | (a, b, c) => a ≠ b && b ≠ c && a ≠ c

/-- The closed exterior ring shapely stores for the spec's square room
footprint `[(0,0),(4,0),(4,3),(0,3)]`. -/
def squareRing : List Point := [(0,0),(4,0),(4,3),(0,3),(0,0)]

/-- The closed exterior ring of the spec's door footprint
`[(1,0),(1.2,0),(1.2,0.1),(1,0.1)]`. -/
def doorRing : List Point := [(1,0),(mkRat 6 5,0),(mkRat 6 5,mkRat 1 10),(1,mkRat 1 10),(1,0)]

/-- The square room element of the spec's end-to-end example. -/
def roomElem : Element :=
  { geometry := some squareRing, entity_subtype := "ROOM", entity_type := "area",
    elevation := 0, height := mkRat 13 5, area_id := some "7" }

/-- The door element of the spec's end-to-end example. -/
def doorElem : Element :=
  { geometry := some doorRing, entity_subtype := "DOOR", entity_type := "opening",
    elevation := 0, height := 2, area_id := none }

/-- The end-to-end example batch: one room area and one door opening. -/
def exampleBatch : ApartmentData :=
  { areas := [roomElem], separators := [], openings := [doorElem] }

/-- An element carrying an empty shapely `Polygon` (a `Polygon` instance whose
exterior coordinate sequence is empty): it passes the `isinstance` test but
`_extrude_polygon` raises on it. -/
def emptyPolyElem : Element :=
  { geometry := some [], entity_subtype := "ROOM", entity_type := "area",
    elevation := 0, height := 1, area_id := none }

/-- An element whose geometry is not a `Polygon` instance. -/
def nonPolyElem : Element :=
  { geometry := none, entity_subtype := "WALL", entity_type := "separator",
    elevation := 0, height := 1, area_id := none }

/-- A well-formed triangular area element. -/
def triElem : Element :=
  { geometry := some [(0,0),(1,0),(0,1),(0,0)], entity_subtype := "KITCHEN",
    entity_type := "area", elevation := 0, height := 1, area_id := none }

/-! ### Supporting lemmas: decimal digit strings -/

/-- Value of a most-significant-first decimal digit list. -/
def digitsVal (l : List Char) : Nat := l.foldl (fun a c => 10 * a + (c.toNat - 48)) 0

lemma digitChar_toNat (d : Nat) (h : d < 10) : (digitChar d).toNat = 48 + d := by
  interval_cases d <;> rfl

lemma digitChar_isDigit (d : Nat) : (digitChar d).isDigit = true := by
  unfold digitChar
  split <;> decide

lemma digitsVal_singleton (c : Char) : digitsVal [c] = c.toNat - 48 := by
  simp [digitsVal]

lemma digitsVal_append_singleton (l : List Char) (c : Char) :
    digitsVal (l ++ [c]) = 10 * digitsVal l + (c.toNat - 48) := by
  simp [digitsVal, List.foldl_append]

lemma natDigitsAux_val : ∀ fuel n, n < fuel → digitsVal (natDigitsAux fuel n) = n := by
  intro fuel
  induction fuel with
  | zero => intro n h; omega
  | succ fuel ih =>
    intro n h
    simp only [natDigitsAux]
    by_cases h10 : n < 10
    · rw [if_pos h10, digitsVal_singleton, digitChar_toNat n h10]
      omega
    · have hdiv : n / 10 < n := Nat.div_lt_self (by omega) (by omega)
      rw [if_neg h10, digitsVal_append_singleton, ih (n / 10) (by omega),
        digitChar_toNat (n % 10) (Nat.mod_lt _ (by omega))]
      omega

lemma natDigits_val (n : Nat) : digitsVal (natDigits n) = n :=
  natDigitsAux_val (n + 1) n (by omega)

lemma natDigits_inj {a b : Nat} (h : natDigits a = natDigits b) : a = b := by
  have ha := natDigits_val a
  rw [h, natDigits_val] at ha
  omega

lemma natDigitsAux_isDigit : ∀ fuel n, ∀ c ∈ natDigitsAux fuel n, c.isDigit = true := by
  intro fuel
  induction fuel with
  | zero => intro n c hc; simp [natDigitsAux] at hc
  | succ fuel ih =>
    intro n c hc
    simp only [natDigitsAux] at hc
    by_cases h10 : n < 10
    · rw [if_pos h10] at hc
      simp at hc
      rw [hc]
      exact digitChar_isDigit n
    · rw [if_neg h10] at hc
      rcases List.mem_append.mp hc with hc | hc
      · exact ih _ c hc
      · simp at hc
        rw [hc]
        exact digitChar_isDigit _

lemma natDigits_isDigit (n : Nat) : ∀ c ∈ natDigits n, c.isDigit = true :=
  fun c hc => natDigitsAux_isDigit (n + 1) n c hc

lemma underscore_not_digit : ('_' : Char).isDigit = false := by decide

/-- Two digit blocks followed by an underscore separator can be recovered from
the concatenation: the separator cannot occur inside a digit block. -/
lemma digitBlock_inj : ∀ (xs ys s1 s2 : List Char),
    (∀ c ∈ xs, c.isDigit = true) → (∀ c ∈ ys, c.isDigit = true) →
    xs ++ '_' :: s1 = ys ++ '_' :: s2 → xs = ys ∧ s1 = s2 := by
  intro xs
  induction xs with
  | nil =>
    intro ys s1 s2 _ hy h
    cases ys with
    | nil => simpa using h
    | cons y ys' =>
      exfalso
      have hhead : '_' = y := by
        have := congrArg (fun l => l.head?) h
        simpa using this
      have := hy y (by simp)
      rw [← hhead] at this
      simp [underscore_not_digit] at this
  | cons x xs' ih =>
    intro ys s1 s2 hx hy h
    cases ys with
    | nil =>
      exfalso
      have hhead : x = '_' := by
        have := congrArg (fun l => l.head?) h
        simpa using this
      have := hx x (by simp)
      rw [hhead] at this
      simp [underscore_not_digit] at this
    | cons y ys' =>
      simp only [List.cons_append, List.cons.injEq] at h
      obtain ⟨hxy, hrest⟩ := h
      obtain ⟨h1, h2⟩ := ih ys' s1 s2 (fun c hc => hx c (by simp [hc]))
        (fun c hc => hy c (by simp [hc])) hrest
      exact ⟨by rw [hxy, h1], h2⟩

/-! ### Supporting lemmas: the conversion loops -/

lemma processGroup_ok_counter (nameFn : Nat → Element → Nat → String) :
    ∀ (es : List Element) (idx c : Nat) (ns : List SceneNode) (c' : Nat),
      processGroup nameFn es idx c = Except.ok (ns, c') →
      c' = c + (es.filter isPolygonElem).length ∧
        ns.length = (es.filter isPolygonElem).length := by
  intro es
  induction es with
  | nil =>
    intro idx c ns c' h
    simp only [processGroup, Except.ok.injEq, Prod.mk.injEq] at h
    simp [← h.1, ← h.2]
  | cons e rest ih =>
    intro idx c ns c' h
    simp only [processGroup] at h
    split at h
    case _ hg =>
      obtain ⟨h1, h2⟩ := ih (idx + 1) c ns c' h
      simp [List.filter_cons, isPolygonElem, hg, h1, h2]
    case _ coords hg =>
      split at h
      · exact absurd h (by simp)
      case _ mesh hx =>
        split at h
        · exact absurd h (by simp)
        case _ p ns' c'' hr =>
          obtain ⟨h1, h2⟩ := ih (idx + 1) (c + 1) ns' c'' hr
          simp only [Except.ok.injEq, Prod.mk.injEq] at h
          obtain ⟨hns, hc⟩ := h
          subst hns hc
          simp [List.filter_cons, isPolygonElem, hg, h1, h2]
          omega

lemma processGroup_ok_of_allOk (nameFn : Nat → Element → Nat → String) :
    ∀ (es : List Element) (idx c : Nat),
      (∀ e ∈ es, elementOk e = true) →
      ∃ ns, processGroup nameFn es idx c = Except.ok (ns, c + (es.filter isPolygonElem).length) ∧
        ns.length = (es.filter isPolygonElem).length := by
  intro es
  induction es with
  | nil => intro idx c _; exact ⟨[], by simp [processGroup], by simp⟩
  | cons e rest ih =>
    intro idx c hok
    have he := hok e (by simp)
    have hrest : ∀ x ∈ rest, elementOk x = true := fun x hx => hok x (by simp [hx])
    cases hg : e.geometry with
    | none =>
      obtain ⟨ns, h1, h2⟩ := ih (idx + 1) c hrest
      refine ⟨ns, ?_, ?_⟩
      · simp only [processGroup, hg]
        rw [h1]
        simp [List.filter_cons, isPolygonElem, hg]
      · simp [List.filter_cons, isPolygonElem, hg, h2]
    | some coords =>
      simp only [elementOk, hg] at he
      cases hx : _extrude_polygon coords e.elevation e.height
          (_get_color_for_entity e.entity_subtype e.entity_type) with
      | error err => rw [hx] at he; simp at he
      | ok mesh =>
        obtain ⟨ns, h1, h2⟩ := ih (idx + 1) (c + 1) hrest
        refine ⟨⟨nameFn idx e c, mesh⟩ :: ns, ?_, ?_⟩
        · simp only [processGroup, hg, hx]
          rw [h1]
          simp only [List.filter_cons, isPolygonElem, hg, Option.isSome_some, if_pos,
            List.length_cons]
          congr 2
          omega
        · simp [List.filter_cons, isPolygonElem, hg, h2]

lemma processGroup_error_of_bad (nameFn : Nat → Element → Nat → String) :
    ∀ (es : List Element) (idx c : Nat),
      (∃ e ∈ es, elementOk e = false) →
      ∃ err, processGroup nameFn es idx c = Except.error (ConvError.geometry err) := by
  intro es
  induction es with
  | nil => intro idx c h; simp at h
  | cons e rest ih =>
    intro idx c hbad
    cases hg : e.geometry with
    | none =>
      have : ∃ x ∈ rest, elementOk x = false := by
        obtain ⟨x, hx, hxf⟩ := hbad
        rcases List.mem_cons.mp hx with rfl | hx
        · exfalso; simp [elementOk, hg] at hxf
        · exact ⟨x, hx, hxf⟩
      obtain ⟨err, herr⟩ := ih (idx + 1) c this
      exact ⟨err, by simp only [processGroup, hg]; exact herr⟩
    | some coords =>
      cases hx : _extrude_polygon coords e.elevation e.height
          (_get_color_for_entity e.entity_subtype e.entity_type) with
      | error err => exact ⟨err, by simp only [processGroup, hg, hx]⟩
      | ok mesh =>
        have : ∃ x ∈ rest, elementOk x = false := by
          obtain ⟨x, hxm, hxf⟩ := hbad
          rcases List.mem_cons.mp hxm with rfl | hxm
          · exfalso; simp [elementOk, hg, hx] at hxf
          · exact ⟨x, hxm, hxf⟩
        obtain ⟨err, herr⟩ := ih (idx + 1) (c + 1) this
        refine ⟨err, ?_⟩
        simp only [processGroup, hg, hx]
        rw [herr]

lemma processGroup_allNone (nameFn : Nat → Element → Nat → String) :
    ∀ (es : List Element) (idx c : Nat),
      (∀ e ∈ es, e.geometry = none) →
      processGroup nameFn es idx c = Except.ok ([], c) := by
  intro es
  induction es with
  | nil => intro idx c _; simp [processGroup]
  | cons e rest ih =>
    intro idx c h
    have hg := h e (by simp)
    simp only [processGroup, hg]
    exact ih (idx + 1) c (fun x hx => h x (by simp [hx]))

lemma processGroup_names (nameFn : Nat → Element → Nat → String) :
    ∀ (es : List Element) (idx c : Nat) (ns : List SceneNode) (c' : Nat),
      processGroup nameFn es idx c = Except.ok (ns, c') →
      ∀ n ∈ ns, ∃ i e cc, idx ≤ i ∧ n.name = nameFn i e cc := by
  intro es
  induction es with
  | nil =>
    intro idx c ns c' h n hn
    simp only [processGroup, Except.ok.injEq, Prod.mk.injEq] at h
    rw [← h.1] at hn
    simp at hn
  | cons e rest ih =>
    intro idx c ns c' h n hn
    simp only [processGroup] at h
    split at h
    case _ hg =>
      obtain ⟨i, x, cc, hi, hname⟩ := ih (idx + 1) c ns c' h n hn
      exact ⟨i, x, cc, by omega, hname⟩
    case _ coords hg =>
      split at h
      · exact absurd h (by simp)
      case _ mesh hx =>
        split at h
        · exact absurd h (by simp)
        case _ p ns' c'' hr =>
          simp only [Except.ok.injEq, Prod.mk.injEq] at h
          rw [← h.1] at hn
          rcases List.mem_cons.mp hn with rfl | hn
          · exact ⟨idx, e, c, le_refl idx, rfl⟩
          · obtain ⟨i, x, cc, hi, hname⟩ := ih (idx + 1) (c + 1) ns' c'' hr n hn
            exact ⟨i, x, cc, by omega, hname⟩

lemma processGroup_nodup (nameFn : Nat → Element → Nat → String)
    (hinj : ∀ i j e1 e2 c1 c2, nameFn i e1 c1 = nameFn j e2 c2 → i = j) :
    ∀ (es : List Element) (idx c : Nat) (ns : List SceneNode) (c' : Nat),
      processGroup nameFn es idx c = Except.ok (ns, c') →
      (ns.map SceneNode.name).Nodup := by
  intro es
  induction es with
  | nil =>
    intro idx c ns c' h
    simp only [processGroup, Except.ok.injEq, Prod.mk.injEq] at h
    rw [← h.1]
    simp
  | cons e rest ih =>
    intro idx c ns c' h
    simp only [processGroup] at h
    split at h
    case _ hg => exact ih (idx + 1) c ns c' h
    case _ coords hg =>
      split at h
      · exact absurd h (by simp)
      case _ mesh hx =>
        split at h
        · exact absurd h (by simp)
        case _ p ns' c'' hr =>
          simp only [Except.ok.injEq, Prod.mk.injEq] at h
          rw [← h.1]
          simp only [List.map_cons, List.nodup_cons]
          refine ⟨?_, ih (idx + 1) (c + 1) ns' c'' hr⟩
          intro hmem
          obtain ⟨n, hn, hname⟩ := List.mem_map.mp hmem
          obtain ⟨i, x, cc, hi, hname2⟩ :=
            processGroup_names nameFn rest (idx + 1) (c + 1) ns' c'' hr n hn
          have : i = idx := hinj i idx x e cc c (by rw [← hname2, hname])
          omega

/-! ### Supporting lemmas: mesh-name structure -/

lemma data_append (s t : String) : (s ++ t).data = s.data ++ t.data := by
  cases s
  cases t
  rfl

/-- The identifier suffix of an area name. -/
def areaIdStr (e : Element) (c : Nat) : List Char :=
  match e.area_id with
  | some s => s.data
  | none => natDigits c

lemma area_name_data (idx : Nat) (e : Element) (c : Nat) :
    (area_name idx e c).data
      = 'a' :: 'r' :: 'e' :: 'a' :: '_' ::
        (natDigits idx ++ '_' :: (e.entity_subtype.data ++ '_' :: areaIdStr e c)) := by
  cases h : e.area_id <;>
    simp [area_name, areaIdStr, natRepr, data_append, h, List.append_assoc]

lemma separator_name_data (idx : Nat) (e : Element) (c : Nat) :
    (separator_name idx e c).data
      = 's' :: 'e' :: 'p' :: 'a' :: 'r' :: 'a' :: 't' :: 'o' :: 'r' :: '_' ::
        (natDigits idx ++ '_' :: (e.entity_subtype.data ++ '_' :: natDigits c)) := by
  simp [separator_name, natRepr, data_append, List.append_assoc]

lemma opening_name_data (idx : Nat) (e : Element) (c : Nat) :
    (opening_name idx e c).data
      = 'o' :: 'p' :: 'e' :: 'n' :: 'i' :: 'n' :: 'g' :: '_' ::
        (natDigits idx ++ '_' :: (e.entity_subtype.data ++ '_' :: natDigits c)) := by
  simp [opening_name, natRepr, data_append, List.append_assoc]

lemma area_name_inj {i j : Nat} {e1 e2 : Element} {c1 c2 : Nat}
    (h : area_name i e1 c1 = area_name j e2 c2) : i = j := by
  have hd := congrArg String.data h
  rw [area_name_data, area_name_data] at hd
  simp only [List.cons.injEq, true_and] at hd
  exact natDigits_inj (digitBlock_inj _ _ _ _ (natDigits_isDigit i) (natDigits_isDigit j) hd).1

lemma separator_name_inj {i j : Nat} {e1 e2 : Element} {c1 c2 : Nat}
    (h : separator_name i e1 c1 = separator_name j e2 c2) : i = j := by
  have hd := congrArg String.data h
  rw [separator_name_data, separator_name_data] at hd
  simp only [List.cons.injEq, true_and] at hd
  exact natDigits_inj (digitBlock_inj _ _ _ _ (natDigits_isDigit i) (natDigits_isDigit j) hd).1

lemma opening_name_inj {i j : Nat} {e1 e2 : Element} {c1 c2 : Nat}
    (h : opening_name i e1 c1 = opening_name j e2 c2) : i = j := by
  have hd := congrArg String.data h
  rw [opening_name_data, opening_name_data] at hd
  simp only [List.cons.injEq, true_and] at hd
  exact natDigits_inj (digitBlock_inj _ _ _ _ (natDigits_isDigit i) (natDigits_isDigit j) hd).1

lemma area_name_head (idx : Nat) (e : Element) (c : Nat) :
    (area_name idx e c).data.head? = some 'a' := by
  rw [area_name_data]; rfl

lemma separator_name_head (idx : Nat) (e : Element) (c : Nat) :
    (separator_name idx e c).data.head? = some 's' := by
  rw [separator_name_data]; rfl

lemma opening_name_head (idx : Nat) (e : Element) (c : Nat) :
    (opening_name idx e c).data.head? = some 'o' := by
  rw [opening_name_data]; rfl
example :
    (convert_apartment_to_glb exampleBatch).map
      (fun ns => (ns.length, ns.map (fun n => n.mesh.faces.length), ns.map SceneNode.name))
      = Except.ok (2, [12, 12], ["area_0_ROOM_7", "opening_0_DOOR_1"]) := by decide
example :
    (_extrude_polygon squareRing 0 1 []).map isClosedMesh = Except.ok false := by decide
example :
    convert_apartment_to_glb ⟨[emptyPolyElem], [], [triElem]⟩
      = Except.error (ConvError.geometry PyError.indexError) := by decide
example :
    convert_apartment_to_glb ⟨[nonPolyElem], [], []⟩
      = Except.error ConvError.emptyScene := by decide
example :
    (processGroup area_name
      [{ geometry := some [((0:ℚ),(0:ℚ)),(1,0),(0,1)], entity_subtype := "ROOM",
         entity_type := "area", elevation := 0, height := 1, area_id := none }] 0 0).map
      (fun p => (p.1.map SceneNode.name, p.2)) = Except.ok (["area_0_ROOM_0"], 1) := by decide
example : (List.range' 1 3).length = 3 := by simp
example : removeClosingDup [((0:ℚ),(0:ℚ)),(1,0),(0,1),(0,0)] = [(0,0),(1,0),(0,1)] := by decide
example :
    (_extrude_polygon [((0:ℚ),(0:ℚ)),(1,0),(0,1)] 0 1 []).map (fun m => m.faces.length)
      = Except.ok 8 := by decide
example :
    (_extrude_polygon ([] : List Point) 0 1 []) = Except.error PyError.indexError := by decide

/-! ### Supporting lemmas: extrusion -/

/-- Closed form of a successful extrusion. -/
lemma extrude_eq (coords : List Point) (elevation height : ℚ) (color : List ℚ)
    (h1 : coords ≠ []) (h2 : removeClosingDup coords ≠ []) :
    _extrude_polygon coords elevation height color = Except.ok
      { vertices := (removeClosingDup coords).map (fun p => (p.1, p.2, elevation)) ++
          (removeClosingDup coords).map (fun p => (p.1, p.2, elevation + height)),
        faces := bottom_faces (removeClosingDup coords).length ++
          top_faces (removeClosingDup coords).length ++
          side_faces (removeClosingDup coords).length,
        vertex_colors := List.replicate
          ((removeClosingDup coords).map (fun p => (p.1, p.2, elevation)) ++
            (removeClosingDup coords).map (fun p => (p.1, p.2, elevation + height))).length
          color } := by
  unfold _extrude_polygon
  rw [if_neg (by simp [List.isEmpty_iff, h1]), if_neg (by simp [List.isEmpty_iff, h2])]

lemma side_faces_length (n : Nat) : (side_faces n).length = 2 * n := by
  simp only [side_faces, List.length_flatMap]
  rw [show (List.length ∘ fun i : Nat =>
      [(i, (i + 1) % n, n + i), ((i + 1) % n, n + (i + 1) % n, n + i)])
      = Function.const Nat 2 from funext fun i => rfl]
  rw [List.map_const, List.sum_replicate, List.length_range, smul_eq_mul]
  ring

lemma bottom_faces_length (n : Nat) : (bottom_faces n).length = n - 2 := by
  simp [bottom_faces, List.length_range']

lemma top_faces_length (n : Nat) : (top_faces n).length = n - 2 := by
  simp [top_faces, List.length_range']

/-! ### Claim theorems -/

/-- C1 (code bug): the spec says the extruded mesh of a convex footprint is
geometrically closed — every edge shared by exactly two triangles.  Evaluating
the code on the convex square room footprint of the spec's own end-to-end
example shows the emitted face list is not closed: the bottom cap's last
triangle is the degenerate `[0,0,1]` and the fan triangle through the last
ring vertex is missing, so edge `{0,1}` lies in four triangles and edges
`{0,2}`, `{2,3}` in one. -/
theorem extrude_square_not_closed :
    (_extrude_polygon squareRing 0 (mkRat 13 5) [mkRat 9 10, 1, mkRat 9 10, 1]).map isClosedMesh
      = Except.ok false := by decide

/-- C2 (confirmed): for every footprint with `N ≥ 3` vertices after removal of
the closing duplicate (in particular every simple convex one), extrusion
returns a mesh with exactly `2·N` vertices and `2·(N−2) + 2·N` faces. -/
theorem extrude_vertex_and_face_counts (coords : List Point) (elevation height : ℚ)
    (color : List ℚ) (hN : 3 ≤ (removeClosingDup coords).length) :
    ∃ m, _extrude_polygon coords elevation height color = Except.ok m ∧
      m.vertices.length = 2 * (removeClosingDup coords).length ∧
      m.faces.length = 2 * ((removeClosingDup coords).length - 2) +
        2 * (removeClosingDup coords).length := by
  have h1 : coords ≠ [] := by
    intro h
    rw [h] at hN
    simp [removeClosingDup] at hN
  have h2 : removeClosingDup coords ≠ [] := by
    intro h
    rw [h] at hN
    simp at hN
  refine ⟨_, extrude_eq coords elevation height color h1 h2, ?_, ?_⟩
  · simp [List.length_append, List.length_map]
    ring
  · simp [List.length_append, bottom_faces_length, top_faces_length, side_faces_length]
    omega

/-- C2 witness: a concrete triangle footprint. -/
theorem extrude_vertex_and_face_counts_witness :
    3 ≤ (removeClosingDup [((0:ℚ), (0:ℚ)), (1, 0), (0, 1)]).length ∧
    ∃ m, _extrude_polygon [((0:ℚ), (0:ℚ)), (1, 0), (0, 1)] 0 1 [1, 1, 1, 1] = Except.ok m ∧
      m.vertices.length = 2 * (removeClosingDup [((0:ℚ), (0:ℚ)), (1, 0), (0, 1)]).length ∧
      m.faces.length = 2 * ((removeClosingDup [((0:ℚ), (0:ℚ)), (1, 0), (0, 1)]).length - 2) +
        2 * (removeClosingDup [((0:ℚ), (0:ℚ)), (1, 0), (0, 1)]).length :=
  ⟨by decide, extrude_vertex_and_face_counts _ 0 1 [1, 1, 1, 1] (by decide)⟩

/-- C4 counterexample: a footprint of two distinct vertices (fewer than 3)
does not fail — extrusion returns a (degenerate) mesh. -/
theorem extrude_two_vertex_footprint_returns_mesh :
    (_extrude_polygon [((0:ℚ), (0:ℚ)), (1, 0)] 0 1 [1, 1, 1, 1]).isOk = true := by decide

/-- C4 (corrected): the code has no vertex-count validation.  A footprint
whose coordinate list has at most one point raises an (untyped) `IndexError`;
any coordinate list with at least two points — even one with fewer than 3
distinct vertices — returns a mesh without error. -/
theorem extrude_no_vertex_count_validation (coords : List Point)
    (elevation height : ℚ) (color : List ℚ) :
    (coords.length ≤ 1 →
      _extrude_polygon coords elevation height color = Except.error PyError.indexError) ∧
    (2 ≤ coords.length →
      ∃ m, _extrude_polygon coords elevation height color = Except.ok m) := by
  constructor
  · intro h
    match coords with
    | [] => rfl
    | [p] => simp [_extrude_polygon, removeClosingDup]
    | p :: q :: rest => simp at h
  · intro h
    have h1 : coords ≠ [] := by
      intro heq
      rw [heq] at h
      simp at h
    have h2 : removeClosingDup coords ≠ [] := by
      intro heq
      have hl := congrArg List.length heq
      simp only [removeClosingDup] at hl
      split at hl <;>
        simp only [List.length_dropLast, List.length_nil] at hl <;> omega
    exact ⟨_, extrude_eq coords elevation height color h1 h2⟩

/-- C4 witness: both branches at concrete inputs. -/
theorem extrude_no_vertex_count_validation_witness :
    _extrude_polygon [((0:ℚ), (0:ℚ))] 0 1 [1, 1, 1, 1] = Except.error PyError.indexError ∧
    ∃ m, _extrude_polygon [((0:ℚ), (0:ℚ)), (1, 0)] 0 1 [1, 1, 1, 1] = Except.ok m :=
  ⟨(extrude_no_vertex_count_validation [((0:ℚ), (0:ℚ))] 0 1 [1, 1, 1, 1]).1 (by decide),
   (extrude_no_vertex_count_validation [((0:ℚ), (0:ℚ)), (1, 0)] 0 1 [1, 1, 1, 1]).2 (by decide)⟩

/-! ### Supporting lemmas: cap triangulation indices -/

lemma range_reverse_getD (n j : Nat) (h : j < n) :
    (List.range n).reverse.getD j 0 = n - 1 - j := by
  rw [List.getD_eq_getElem?_getD, List.getElem?_reverse (by simpa using h), List.length_range,
    List.getElem?_range (by omega)]
  rfl

lemma bottom_faces_eq (n : Nat) (h : 3 ≤ n) :
    bottom_faces n = (List.range' 1 (n - 2)).map (fun i => (0, n - 2 - i, n - 1 - i)) := by
  unfold bottom_faces
  apply List.map_congr_left
  intro i hi
  obtain ⟨hi1, hi2⟩ := List.mem_range'_1.mp hi
  rw [range_reverse_getD n (i + 1) (by omega), range_reverse_getD n i (by omega)]
  refine congrArg (fun x => ((0:Nat), x, n - 1 - i)) ?_
  omega

lemma range'_split (n : Nat) (h : 3 ≤ n) :
    List.range' 1 (n - 2) = List.range' 1 (n - 3) ++ [n - 2] := by
  have h32 : n - 2 = (n - 3) + 1 := by omega
  rw [h32, List.range'_concat]
  refine congrArg (fun x => List.range' 1 (n - 3) ++ [x]) ?_
  omega

/-- C5 (confirmed): for `N ≥ 3` ring vertices, the last bottom-cap triangle
the extruder emits (loop index `i = N−2`) is the degenerate `(0, 0, 1)`, the
bottom cap holds only `N−3` non-degenerate triangles, and every top-cap
triangle `(N, N+i, N+i+1)` is non-degenerate. -/
theorem bottom_cap_degenerate (N : Nat) (h : 3 ≤ N) :
    (bottom_faces N).getLast? = some (0, 0, 1) ∧
    ((bottom_faces N).filter nondegenerate).length = N - 3 ∧
    ∀ f ∈ top_faces N, nondegenerate f = true := by
  refine ⟨?_, ?_, ?_⟩
  · rw [bottom_faces_eq N h, range'_split N h, List.map_append]
    simp only [List.map_cons, List.map_nil]
    rw [List.getLast?_concat]
    have e1 : N - 2 - (N - 2) = 0 := by omega
    have e2 : N - 1 - (N - 2) = 1 := by omega
    simp [e1, e2]
  · rw [bottom_faces_eq N h, range'_split N h, List.map_append, List.filter_append]
    have h1 : List.filter nondegenerate ((List.range' 1 (N - 3)).map
        (fun i => ((0:Nat), N - 2 - i, N - 1 - i)))
        = (List.range' 1 (N - 3)).map (fun i => ((0:Nat), N - 2 - i, N - 1 - i)) := by
      rw [List.filter_eq_self]
      intro a ha
      obtain ⟨i, hi, rfl⟩ := List.mem_map.mp ha
      obtain ⟨hi1, hi2⟩ := List.mem_range'_1.mp hi
      simp only [nondegenerate, Bool.and_eq_true, decide_eq_true_eq]
      omega
    have h2 : List.filter nondegenerate ([N - 2].map
        (fun i => ((0:Nat), N - 2 - i, N - 1 - i))) = [] := by
      have e1 : N - 2 - (N - 2) = 0 := by omega
      have e2 : N - 1 - (N - 2) = 1 := by omega
      simp only [List.map_cons, List.map_nil, e1, e2]
      simp [nondegenerate]
    rw [h1, h2, List.append_nil, List.length_map, List.length_range']
  · intro f hf
    obtain ⟨i, hi, rfl⟩ := List.mem_map.mp hf
    obtain ⟨hi1, hi2⟩ := List.mem_range'_1.mp hi
    simp only [nondegenerate, Bool.and_eq_true, decide_eq_true_eq]
    omega

/-- C5 witness: the square, `N = 4`. -/
theorem bottom_cap_degenerate_witness :
    (3 ≤ 4) ∧
    ((bottom_faces 4).getLast? = some (0, 0, 1) ∧
      ((bottom_faces 4).filter nondegenerate).length = 4 - 3 ∧
      ∀ f ∈ top_faces 4, nondegenerate f = true) :=
  ⟨by decide, bottom_cap_degenerate 4 (by decide)⟩

/-! ### Supporting lemmas: color table -/

lemma lookup_mem_value : ∀ (m : List (String × List ℚ)) (k : String) (v : List ℚ),
    m.lookup k = some v → ∃ k', (k', v) ∈ m := by
  intro m
  induction m with
  | nil => intro k v h; simp [List.lookup] at h
  | cons p rest ih =>
    intro k v h
    obtain ⟨pk, pv⟩ := p
    rw [List.lookup] at h
    split at h
    · exact ⟨pk, by simp only [Option.some.injEq] at h; rw [h]; simp⟩
    · obtain ⟨k', hk'⟩ := ih k v h
      exact ⟨k', by simp [hk']⟩

lemma color_map_entries : ∀ p ∈ color_map, ∀ x ∈ p.2, 0 ≤ x ∧ x ≤ 1 := by decide

lemma get_color_mem (s t : String) : ∃ k, (k, _get_color_for_entity s t) ∈ color_map := by
  unfold _get_color_for_entity dictGet
  rcases hs : color_map.lookup s with _ | cs
  · rcases ht : color_map.lookup t with _ | ct
    · have hd : color_map.lookup "DEFAULT" = some [mkRat 8 10, mkRat 8 10, mkRat 8 10, 1] := by decide
      simp only [hs, ht, hd]
      exact ⟨"DEFAULT", by decide⟩
    · simp only [hs, ht]
      exact lookup_mem_value color_map t ct ht
  · simp only [hs]
    exact lookup_mem_value color_map s cs hs

/-- C8 (confirmed): color resolution looks up the subtype, then the type, then
falls back to the default entry, so it never fails; `"BEDROOM"` resolves to the
same RGBA as `"ROOM"`; an unknown pair resolves to the default gray; and every
component of every resolved color lies in `[0, 1]`. -/
theorem color_resolution_fallback_chain (s t : String) :
    (∀ c, color_map.lookup s = some c → _get_color_for_entity s t = c) ∧
    (color_map.lookup s = none →
      ∀ c, color_map.lookup t = some c → _get_color_for_entity s t = c) ∧
    (color_map.lookup s = none → color_map.lookup t = none →
      _get_color_for_entity s t = [mkRat 8 10, mkRat 8 10, mkRat 8 10, 1]) ∧
    _get_color_for_entity "BEDROOM" t = _get_color_for_entity "ROOM" t ∧
    ∀ x ∈ _get_color_for_entity s t, 0 ≤ x ∧ x ≤ 1 := by
  refine ⟨?_, ?_, ?_, ?_, ?_⟩
  · intro c h
    simp [_get_color_for_entity, dictGet, h]
  · intro hs c ht
    simp [_get_color_for_entity, dictGet, hs, ht]
  · intro hs ht
    have hd : color_map.lookup "DEFAULT" = some [mkRat 8 10, mkRat 8 10, mkRat 8 10, 1] := by decide
    simp [_get_color_for_entity, dictGet, hs, ht, hd]
  · have hb : color_map.lookup "BEDROOM" = some [mkRat 9 10, 1, mkRat 9 10, 1] := by decide
    have hr : color_map.lookup "ROOM" = some [mkRat 9 10, 1, mkRat 9 10, 1] := by decide
    simp [_get_color_for_entity, dictGet, hb, hr]
  · intro x hx
    obtain ⟨k, hk⟩ := get_color_mem s t
    exact color_map_entries (k, _get_color_for_entity s t) hk x hx

/-- C8 witness: an unknown pair resolves to the default color, and the
`"BEDROOM"`/`"ROOM"` colors agree, at concrete inputs. -/
theorem color_resolution_fallback_chain_witness :
    _get_color_for_entity "GARAGE" "POOL" = [mkRat 8 10, mkRat 8 10, mkRat 8 10, 1] ∧
    _get_color_for_entity "BEDROOM" "area" = _get_color_for_entity "ROOM" "area" :=
  ⟨(color_resolution_fallback_chain "GARAGE" "POOL").2.2.1 (by decide) (by decide),
   (color_resolution_fallback_chain "BEDROOM" "area").2.2.2.1⟩

/-! ### Supporting lemmas: whole-conversion decomposition -/

lemma processGroup_error_shape (nameFn : Nat → Element → Nat → String) :
    ∀ (es : List Element) (idx c : Nat) (err : ConvError),
      processGroup nameFn es idx c = Except.error err →
      ∃ pe, err = ConvError.geometry pe := by
  intro es
  induction es with
  | nil => intro idx c err h; simp [processGroup] at h
  | cons e rest ih =>
    intro idx c err h
    simp only [processGroup] at h
    split at h
    case _ hg => exact ih (idx + 1) c err h
    case _ coords hg =>
      split at h
      · rename_i pe hx
        simp only [Except.error.injEq] at h
        exact ⟨pe, h.symm⟩
      · split at h
        · rename_i err2 hr
          simp only [Except.error.injEq] at h
          obtain ⟨pe, hpe⟩ := ih (idx + 1) (c + 1) err2 hr
          exact ⟨pe, by rw [← h, hpe]⟩
        · exact absurd h (by simp)

lemma convert_ok_decompose (d : ApartmentData) (ns : List SceneNode)
    (h : convert_apartment_to_glb d = Except.ok ns) :
    ∃ ns1 c1 ns2 c2 ns3 c3,
      processGroup area_name d.areas 0 0 = Except.ok (ns1, c1) ∧
      processGroup separator_name d.separators 0 c1 = Except.ok (ns2, c2) ∧
      processGroup opening_name d.openings 0 c2 = Except.ok (ns3, c3) ∧
      c3 ≠ 0 ∧ ns = ns1 ++ ns2 ++ ns3 := by
  unfold convert_apartment_to_glb at h
  cases hp1 : processGroup area_name d.areas 0 0 with
  | error e => rw [hp1] at h; simp at h
  | ok p1 =>
    obtain ⟨ns1, c1⟩ := p1
    rw [hp1] at h
    dsimp only at h
    cases hp2 : processGroup separator_name d.separators 0 c1 with
    | error e => rw [hp2] at h; simp at h
    | ok p2 =>
      obtain ⟨ns2, c2⟩ := p2
      rw [hp2] at h
      dsimp only at h
      cases hp3 : processGroup opening_name d.openings 0 c2 with
      | error e => rw [hp3] at h; simp at h
      | ok p3 =>
        obtain ⟨ns3, c3⟩ := p3
        rw [hp3] at h
        dsimp only at h
        by_cases hc : c3 = 0
        · rw [if_pos hc] at h
          exact absurd h (by simp)
        · rw [if_neg hc] at h
          simp only [Except.ok.injEq] at h
          exact ⟨ns1, c1, ns2, c2, ns3, c3, rfl, hp2, hp3, hc, h.symm⟩

lemma convert_ok_of_allOk (d : ApartmentData)
    (hok : ∀ e ∈ allElements d, elementOk e = true) (hnz : polygonCount d ≠ 0) :
    ∃ ns1 ns2 ns3 c1 c2 c3,
      processGroup area_name d.areas 0 0 = Except.ok (ns1, c1) ∧
      processGroup separator_name d.separators 0 c1 = Except.ok (ns2, c2) ∧
      processGroup opening_name d.openings 0 c2 = Except.ok (ns3, c3) ∧
      convert_apartment_to_glb d = Except.ok (ns1 ++ ns2 ++ ns3) ∧
      ns1.length = (d.areas.filter isPolygonElem).length ∧
      ns2.length = (d.separators.filter isPolygonElem).length ∧
      ns3.length = (d.openings.filter isPolygonElem).length := by
  have hA : ∀ e ∈ d.areas, elementOk e = true :=
    fun e he => hok e (by simp [allElements, he])
  have hS : ∀ e ∈ d.separators, elementOk e = true :=
    fun e he => hok e (by simp [allElements, he])
  have hO : ∀ e ∈ d.openings, elementOk e = true :=
    fun e he => hok e (by simp [allElements, he])
  obtain ⟨ns1, h1, l1⟩ := processGroup_ok_of_allOk area_name d.areas 0 0 hA
  obtain ⟨ns2, h2, l2⟩ := processGroup_ok_of_allOk separator_name d.separators 0
    (0 + (d.areas.filter isPolygonElem).length) hS
  obtain ⟨ns3, h3, l3⟩ := processGroup_ok_of_allOk opening_name d.openings 0
    (0 + (d.areas.filter isPolygonElem).length + (d.separators.filter isPolygonElem).length) hO
  refine ⟨ns1, ns2, ns3, _, _, _, h1, h2, h3, ?_, l1, l2, l3⟩
  have hpc : polygonCount d
      = (d.areas.filter isPolygonElem).length + (d.separators.filter isPolygonElem).length +
        (d.openings.filter isPolygonElem).length := by
    simp [polygonCount, allElements, List.filter_append]
    omega
  unfold convert_apartment_to_glb
  rw [h1]
  dsimp only
  rw [h2]
  dsimp only
  rw [h3]
  dsimp only
  rw [if_neg (by omega)]

lemma filterPoly_len_zero_geometry {es : List Element}
    (h : (es.filter isPolygonElem).length = 0) : ∀ e ∈ es, e.geometry = none := by
  intro e he
  have hmem := List.filter_eq_nil_iff.mp (List.length_eq_zero.mp h) e he
  cases hg : e.geometry with
  | none => rfl
  | some c =>
    exfalso
    exact hmem (by simp [isPolygonElem, hg])

lemma convert_emptyScene_all_none (d : ApartmentData)
    (h : convert_apartment_to_glb d = Except.error ConvError.emptyScene) :
    ∀ e ∈ allElements d, e.geometry = none := by
  unfold convert_apartment_to_glb at h
  cases hp1 : processGroup area_name d.areas 0 0 with
  | error e1 =>
    rw [hp1] at h
    dsimp only at h
    simp only [Except.error.injEq] at h
    obtain ⟨pe, hpe⟩ := processGroup_error_shape area_name d.areas 0 0 e1 hp1
    rw [h] at hpe
    exact absurd hpe (by simp)
  | ok p1 =>
    obtain ⟨ns1, c1⟩ := p1
    rw [hp1] at h
    dsimp only at h
    cases hp2 : processGroup separator_name d.separators 0 c1 with
    | error e2 =>
      rw [hp2] at h
      dsimp only at h
      simp only [Except.error.injEq] at h
      obtain ⟨pe, hpe⟩ := processGroup_error_shape separator_name d.separators 0 c1 e2 hp2
      rw [h] at hpe
      exact absurd hpe (by simp)
    | ok p2 =>
      obtain ⟨ns2, c2⟩ := p2
      rw [hp2] at h
      dsimp only at h
      cases hp3 : processGroup opening_name d.openings 0 c2 with
      | error e3 =>
        rw [hp3] at h
        dsimp only at h
        simp only [Except.error.injEq] at h
        obtain ⟨pe, hpe⟩ := processGroup_error_shape opening_name d.openings 0 c2 e3 hp3
        rw [h] at hpe
        exact absurd hpe (by simp)
      | ok p3 =>
        obtain ⟨ns3, c3⟩ := p3
        rw [hp3] at h
        dsimp only at h
        by_cases hc : c3 = 0
        · obtain ⟨hc1, -⟩ := processGroup_ok_counter area_name d.areas 0 0 ns1 c1 hp1
          obtain ⟨hc2, -⟩ := processGroup_ok_counter separator_name d.separators 0 c1 ns2 c2 hp2
          obtain ⟨hc3, -⟩ := processGroup_ok_counter opening_name d.openings 0 c2 ns3 c3 hp3
          have ha : (d.areas.filter isPolygonElem).length = 0 := by omega
          have hs : (d.separators.filter isPolygonElem).length = 0 := by omega
          have ho : (d.openings.filter isPolygonElem).length = 0 := by omega
          intro e he
          rcases List.mem_append.mp he with he12 | heO
          · rcases List.mem_append.mp he12 with heA | heS
            · exact filterPoly_len_zero_geometry ha e heA
            · exact filterPoly_len_zero_geometry hs e heS
          · exact filterPoly_len_zero_geometry ho e heO
        · rw [if_neg hc] at h
          exact absurd h (by simp)

lemma convert_all_none_emptyScene (d : ApartmentData)
    (h : ∀ e ∈ allElements d, e.geometry = none) :
    convert_apartment_to_glb d = Except.error ConvError.emptyScene := by
  have h1 := processGroup_allNone area_name d.areas 0 0
    (fun e he => h e (by simp [allElements, he]))
  have h2 := processGroup_allNone separator_name d.separators 0 0
    (fun e he => h e (by simp [allElements, he]))
  have h3 := processGroup_allNone opening_name d.openings 0 0
    (fun e he => h e (by simp [allElements, he]))
  unfold convert_apartment_to_glb
  rw [h1]
  dsimp only
  rw [h2]
  dsimp only
  rw [h3]
  dsimp only
  simp

/-- C7 counterexample: a batch in which zero elements yield a valid mesh (its
only element is an empty shapely `Polygon` whose extrusion raises) fails with
the propagated geometry error, not with the empty-scene error. -/
theorem zero_valid_mesh_batch_fails_with_geometry_error :
    convert_apartment_to_glb ⟨[emptyPolyElem], [], []⟩
        = Except.error (ConvError.geometry PyError.indexError) ∧
    convert_apartment_to_glb ⟨[emptyPolyElem], [], []⟩
        ≠ Except.error ConvError.emptyScene := by decide

/-- C7 (corrected): the conversion fails with the empty-scene error exactly
when every element of the batch is skipped by the `isinstance` test (geometry
not a `Polygon`), the empty batch included.  In particular a produced node
rules that error out; but a batch whose only `Polygon` elements raise during
extrusion fails with the propagated error instead. -/
theorem emptyScene_iff_all_skipped (d : ApartmentData) :
    convert_apartment_to_glb d = Except.error ConvError.emptyScene ↔
      ∀ e ∈ allElements d, e.geometry = none :=
  ⟨convert_emptyScene_all_none d, convert_all_none_emptyScene d⟩

/-- C7 witness: the empty batch, and a batch of one non-`Polygon` element,
both fail with the empty-scene error. -/
theorem emptyScene_iff_all_skipped_witness :
    convert_apartment_to_glb ⟨[], [], []⟩ = Except.error ConvError.emptyScene ∧
    convert_apartment_to_glb ⟨[nonPolyElem], [], []⟩ = Except.error ConvError.emptyScene :=
  ⟨(emptyScene_iff_all_skipped ⟨[], [], []⟩).mpr (by decide),
   (emptyScene_iff_all_skipped ⟨[nonPolyElem], [], []⟩).mpr (by decide)⟩

/-- C3 counterexample: a geometry failure while meshing one element aborts the
whole conversion — the valid door opening after the failing area is not
converted, the conversion errors instead. -/
theorem meshing_failure_aborts_conversion :
    convert_apartment_to_glb ⟨[emptyPolyElem], [], [triElem]⟩
      = Except.error (ConvError.geometry PyError.indexError) := by decide

/-- C3 (corrected): an element whose geometry is not a `Polygon` instance is
silently skipped, and if no element raises during extrusion all remaining
elements are converted (the node count is the number of `Polygon`-geometry
elements); but a geometry failure while meshing one element aborts the whole
conversion with the propagated error — the remaining elements are lost. -/
theorem invalid_geometry_skipped_but_failure_aborts (d : ApartmentData) :
    ((∀ e ∈ allElements d, elementOk e = true) → polygonCount d ≠ 0 →
      ∃ ns, convert_apartment_to_glb d = Except.ok ns ∧ ns.length = polygonCount d) ∧
    ((∃ e ∈ allElements d, elementOk e = false) →
      ∃ err, convert_apartment_to_glb d = Except.error (ConvError.geometry err)) := by
  constructor
  · intro hok hnz
    obtain ⟨ns1, ns2, ns3, c1, c2, c3, -, -, -, hc, l1, l2, l3⟩ :=
      convert_ok_of_allOk d hok hnz
    refine ⟨ns1 ++ ns2 ++ ns3, hc, ?_⟩
    simp [polygonCount, allElements, List.filter_append, l1, l2, l3]
  · intro hbad
    obtain ⟨e, he, hf⟩ := hbad
    rcases List.mem_append.mp he with he12 | heO
    · rcases List.mem_append.mp he12 with heA | heS
      · obtain ⟨err, herr⟩ := processGroup_error_of_bad area_name d.areas 0 0 ⟨e, heA, hf⟩
        refine ⟨err, ?_⟩
        unfold convert_apartment_to_glb
        rw [herr]
      · cases hp1 : processGroup area_name d.areas 0 0 with
        | error e1 =>
          obtain ⟨pe, hpe⟩ := processGroup_error_shape area_name d.areas 0 0 e1 hp1
          refine ⟨pe, ?_⟩
          unfold convert_apartment_to_glb
          rw [hp1, hpe]
        | ok p1 =>
          obtain ⟨ns1, c1⟩ := p1
          obtain ⟨err, herr⟩ :=
            processGroup_error_of_bad separator_name d.separators 0 c1 ⟨e, heS, hf⟩
          refine ⟨err, ?_⟩
          unfold convert_apartment_to_glb
          rw [hp1]
          dsimp only
          rw [herr]
    · cases hp1 : processGroup area_name d.areas 0 0 with
      | error e1 =>
        obtain ⟨pe, hpe⟩ := processGroup_error_shape area_name d.areas 0 0 e1 hp1
        refine ⟨pe, ?_⟩
        unfold convert_apartment_to_glb
        rw [hp1, hpe]
      | ok p1 =>
        obtain ⟨ns1, c1⟩ := p1
        cases hp2 : processGroup separator_name d.separators 0 c1 with
        | error e2 =>
          obtain ⟨pe, hpe⟩ := processGroup_error_shape separator_name d.separators 0 c1 e2 hp2
          refine ⟨pe, ?_⟩
          unfold convert_apartment_to_glb
          rw [hp1]
          dsimp only
          rw [hp2, hpe]
        | ok p2 =>
          obtain ⟨ns2, c2⟩ := p2
          obtain ⟨err, herr⟩ :=
            processGroup_error_of_bad opening_name d.openings 0 c2 ⟨e, heO, hf⟩
          refine ⟨err, ?_⟩
          unfold convert_apartment_to_glb
          rw [hp1]
          dsimp only
          rw [hp2]
          dsimp only
          rw [herr]

/-- C3 witness: skipping works when nothing raises; a raising element aborts. -/
theorem invalid_geometry_skipped_but_failure_aborts_witness :
    (∃ ns, convert_apartment_to_glb ⟨[nonPolyElem, triElem], [], []⟩ = Except.ok ns ∧
      ns.length = polygonCount ⟨[nonPolyElem, triElem], [], []⟩) ∧
    (∃ err, convert_apartment_to_glb ⟨[triElem], [], [emptyPolyElem]⟩
      = Except.error (ConvError.geometry err)) :=
  ⟨(invalid_geometry_skipped_but_failure_aborts ⟨[nonPolyElem, triElem], [], []⟩).1
      (by decide) (by decide),
   (invalid_geometry_skipped_but_failure_aborts ⟨[triElem], [], [emptyPolyElem]⟩).2
      (by decide)⟩

/-- C6 counterexample: with one valid area followed by an empty-`Polygon` area
the claim's count formula predicts a one-node scene, but the conversion aborts
and produces no scene at all. -/
theorem abort_loses_remaining_elements :
    (convert_apartment_to_glb ⟨[triElem, emptyPolyElem], [], []⟩).isOk = false := by decide

/-- C6 (corrected): provided no element raises during extrusion, the assembler
processes areas, then separators, then openings, appending produced nodes in
encounter order (every node of the first segment is area-named, of the second
separator-named, of the third opening-named), and the node count equals the
number of input elements minus the number of elements without `Polygon`
geometry; an extrusion failure instead aborts the conversion with an error. -/
theorem scene_assembly_order_and_count (d : ApartmentData)
    (hok : ∀ e ∈ allElements d, elementOk e = true) (hnz : polygonCount d ≠ 0) :
    ∃ ns1 ns2 ns3,
      convert_apartment_to_glb d = Except.ok (ns1 ++ ns2 ++ ns3) ∧
      (∀ n ∈ ns1, ∃ i e c, n.name = area_name i e c) ∧
      (∀ n ∈ ns2, ∃ i e c, n.name = separator_name i e c) ∧
      (∀ n ∈ ns3, ∃ i e c, n.name = opening_name i e c) ∧
      ns1.length = (d.areas.filter isPolygonElem).length ∧
      ns2.length = (d.separators.filter isPolygonElem).length ∧
      ns3.length = (d.openings.filter isPolygonElem).length ∧
      ns1.length + ns2.length + ns3.length
        = (allElements d).length
          - ((allElements d).filter (fun e => !(isPolygonElem e))).length := by
  obtain ⟨ns1, ns2, ns3, c1, c2, c3, h1, h2, h3, hc, l1, l2, l3⟩ :=
    convert_ok_of_allOk d hok hnz
  have hn1 := processGroup_names area_name d.areas 0 0 ns1 c1 h1
  have hn2 := processGroup_names separator_name d.separators 0 c1 ns2 c2 h2
  have hn3 := processGroup_names opening_name d.openings 0 c2 ns3 c3 h3
  refine ⟨ns1, ns2, ns3, hc, ?_, ?_, ?_, l1, l2, l3, ?_⟩
  · intro n hn
    obtain ⟨i, e, cc, -, hname⟩ := hn1 n hn
    exact ⟨i, e, cc, hname⟩
  · intro n hn
    obtain ⟨i, e, cc, -, hname⟩ := hn2 n hn
    exact ⟨i, e, cc, hname⟩
  · intro n hn
    obtain ⟨i, e, cc, -, hname⟩ := hn3 n hn
    exact ⟨i, e, cc, hname⟩
  · have hsplit := List.length_eq_length_filter_add (l := allElements d) isPolygonElem
    have hpoly : ((allElements d).filter isPolygonElem).length
        = (d.areas.filter isPolygonElem).length + (d.separators.filter isPolygonElem).length +
          (d.openings.filter isPolygonElem).length := by
      simp [allElements, List.filter_append]
      omega
    omega

/-- A batch mixing a room area, a skipped non-`Polygon` separator and a door
opening. -/
def mixedBatch : ApartmentData := ⟨[roomElem, nonPolyElem], [], [doorElem]⟩

/-- C6 witness: the mixed batch. -/
theorem scene_assembly_order_and_count_witness :
    (∀ e ∈ allElements mixedBatch, elementOk e = true) ∧ polygonCount mixedBatch ≠ 0 ∧
    ∃ ns1 ns2 ns3,
      convert_apartment_to_glb mixedBatch = Except.ok (ns1 ++ ns2 ++ ns3) ∧
      (∀ n ∈ ns1, ∃ i e c, n.name = area_name i e c) ∧
      (∀ n ∈ ns2, ∃ i e c, n.name = separator_name i e c) ∧
      (∀ n ∈ ns3, ∃ i e c, n.name = opening_name i e c) ∧
      ns1.length = (mixedBatch.areas.filter isPolygonElem).length ∧
      ns2.length = (mixedBatch.separators.filter isPolygonElem).length ∧
      ns3.length = (mixedBatch.openings.filter isPolygonElem).length ∧
      ns1.length + ns2.length + ns3.length
        = (allElements mixedBatch).length
          - ((allElements mixedBatch).filter (fun e => !(isPolygonElem e))).length :=
  ⟨by decide, by decide, scene_assembly_order_and_count mixedBatch (by decide) (by decide)⟩

/-- C9 (confirmed): whenever the conversion returns a scene, the node names
are pairwise distinct — within one group the running loop index disambiguates
(decimal digit blocks before an underscore separator are prefix-free), and the
three groups' literal name stems differ in their first character. -/
theorem scene_node_names_distinct (d : ApartmentData) (ns : List SceneNode)
    (h : convert_apartment_to_glb d = Except.ok ns) :
    (ns.map SceneNode.name).Nodup := by
  obtain ⟨ns1, c1, ns2, c2, ns3, c3, hp1, hp2, hp3, -, rfl⟩ := convert_ok_decompose d ns h
  have nd1 := processGroup_nodup area_name
    (fun i j e1 e2 a b hh => area_name_inj hh) d.areas 0 0 ns1 c1 hp1
  have nd2 := processGroup_nodup separator_name
    (fun i j e1 e2 a b hh => separator_name_inj hh) d.separators 0 c1 ns2 c2 hp2
  have nd3 := processGroup_nodup opening_name
    (fun i j e1 e2 a b hh => opening_name_inj hh) d.openings 0 c2 ns3 c3 hp3
  have hn1 := processGroup_names area_name d.areas 0 0 ns1 c1 hp1
  have hn2 := processGroup_names separator_name d.separators 0 c1 ns2 c2 hp2
  have hn3 := processGroup_names opening_name d.openings 0 c2 ns3 c3 hp3
  have head1 : ∀ x ∈ ns1.map SceneNode.name, x.data.head? = some 'a' := by
    intro x hx
    obtain ⟨n, hn, rfl⟩ := List.mem_map.mp hx
    obtain ⟨i, e, cc, -, hname⟩ := hn1 n hn
    rw [hname]
    exact area_name_head i e cc
  have head2 : ∀ x ∈ ns2.map SceneNode.name, x.data.head? = some 's' := by
    intro x hx
    obtain ⟨n, hn, rfl⟩ := List.mem_map.mp hx
    obtain ⟨i, e, cc, -, hname⟩ := hn2 n hn
    rw [hname]
    exact separator_name_head i e cc
  have head3 : ∀ x ∈ ns3.map SceneNode.name, x.data.head? = some 'o' := by
    intro x hx
    obtain ⟨n, hn, rfl⟩ := List.mem_map.mp hx
    obtain ⟨i, e, cc, -, hname⟩ := hn3 n hn
    rw [hname]
    exact opening_name_head i e cc
  rw [List.map_append, List.map_append, List.nodup_append, List.nodup_append]
  refine ⟨⟨nd1, nd2, ?_⟩, nd3, ?_⟩
  · intro x hx1 hx2
    have ha := head1 x hx1
    have hs := head2 x hx2
    rw [ha] at hs
    exact absurd hs (by decide)
  · intro x hx12 hx3
    have ho := head3 x hx3
    rcases List.mem_append.mp hx12 with hx | hx
    · have ha := head1 x hx
      rw [ha] at ho
      exact absurd ho (by decide)
    · have hs := head2 x hx
      rw [hs] at ho
      exact absurd ho (by decide)

/-- The node list the example batch converts to. -/
def exampleNodes : List SceneNode :=
  match convert_apartment_to_glb exampleBatch with
  | Except.ok ns => ns
  | Except.error _ => []

/-- C9 witness: the example batch's node names are distinct. -/
theorem scene_node_names_distinct_witness :
    (exampleNodes.map SceneNode.name).Nodup :=
  scene_node_names_distinct exampleBatch exampleNodes (by with_unfolding_all rfl)

/-- C10 counterexample: the exported scene of the spec's end-to-end example
does not consist of two nodes of 16 triangles each. -/
theorem end_to_end_example_not_sixteen :
    (convert_apartment_to_glb exampleBatch).map
      (fun ns => (ns.length, ns.map (fun n => n.mesh.faces.length)))
      ≠ Except.ok (2, [16, 16]) := by decide

/-- C10 (corrected): the end-to-end example produces exactly 2 mesh nodes,
the first with 12 triangles and the uniform light-green room color on its 8
vertices, the second with 12 triangles and the uniform brown door color
(each box has N = 4 ring vertices, hence 2·(N−2) + 2·N = 12 triangles,
not 16). -/
theorem end_to_end_example_scene :
    (convert_apartment_to_glb exampleBatch).map
      (fun ns => (ns.length, ns.map (fun n => n.mesh.faces.length),
        ns.map (fun n => n.mesh.vertex_colors)))
      = Except.ok (2, [12, 12],
        [List.replicate 8 [mkRat 9 10, 1, mkRat 9 10, 1],
         List.replicate 8 [mkRat 6 10, mkRat 4 10, mkRat 2 10, 1]]) := by decide
